import Mathlib

/-!
Verification of the scanner-approval trading dashboard
(`app.py` and `kite_utils.py`).

Modelling conventions:
* Python floats are modelled as exact rationals (`ℚ`).
* Python's `round(x, n)` (round-half-to-even on the decimal value, per the
  Python documentation) is modelled by `roundHalfEven`/`pyRound`.
* The market-data gateway is a pure snapshot `snap : String → ℚ` giving the
  open price per symbol; `get_ohlc_data` returns `0.0` on any remote error,
  so `0` encodes "data unavailable".
* Exceptions are modelled with `Except String`; functions that catch all
  exceptions are total.
-/

namespace Dashboard

/-- Round-half-to-even of a rational to an integer, as Python's builtin
`round` behaves on exact decimal values. -/
def roundHalfEven (x : ℚ) : ℤ :=
  let f : ℤ := ⌊x⌋
  let r : ℚ := x - f
  if r < 1/2 then f
  else if 1/2 < r then f + 1
  else if Even f then f else f + 1

/-- Python's `round(x, ndigits)` on our rational model of floats. -/
def pyRound (x : ℚ) (ndigits : ℕ) : ℚ :=
  (roundHalfEven (x * 10 ^ ndigits) : ℚ) / 10 ^ ndigits

/-- One scanner row, as the dict flowing through `app.py`: the fields fetched
from the store (`symbol`, `rationale`, `true_range`), the operator's `Action`
column, and the fields added in place by `calculate_quantity_and_finalize`
(`open_price`, `buy_price`, `sell_price`, `quantity`), absent (`none`)
until that function sets them. `true_range` is optional because the code
reads it with `row.get("true_range", 0)`. -/
structure ScannerRow where
  symbol : String
  rationale : String
  true_range : Option ℚ
  Action : String
  open_price : Option ℚ := none
  buy_price : Option ℚ := none
  sell_price : Option ℚ := none
  quantity : Option ℤ := none
  deriving DecidableEq, Repr

/-- The two capital strategies offered by the sidebar selectbox
(`"One each"` / `"Equal distribution"`). -/
inductive CapitalStrategy where
  | one_each
  | equal_distribution
  deriving DecidableEq, Repr

/-- The `ohlc_map` built in step 1 of `calculate_quantity_and_finalize`:
`for symbol in symbols: ohlc_map[symbol] = get_ohlc_data(...)[1]`, read back
with `ohlc_map.get(symbol, 0.0)`. -/
def ohlcLookup (symbols : List String) (snap : String → ℚ) (s : String) : ℚ :=
  if s ∈ symbols then snap s else 0

/-- Step 2 of `calculate_quantity_and_finalize` (app.py) for one row:
skip the row (`continue`) when the open price is `0.0`, otherwise set
`open_price` (2-decimal format), `buy_price = round(open + delta, 1)` and
`sell_price = round(open - delta, 1)` where `delta = true_range * multiplier`. -/
def finalizeRow (lookup : String → ℚ) (multiplier : ℚ) (row : ScannerRow) :
    Option ScannerRow :=
  let open_price := lookup row.symbol
  if open_price = 0 then none
  else
    let metric_base_val := row.true_range.getD 0
    let delta := metric_base_val * multiplier
    let calc_buy := open_price + delta
    let calc_sell := open_price - delta
    some { row with
            open_price := some (pyRound open_price 2)
            buy_price := some (pyRound calc_buy 1)
            sell_price := some (pyRound calc_sell 1) }

/-- Step 3 of `calculate_quantity_and_finalize` (app.py) for one row:
`"One each"` sets quantity 1; `"Equal distribution"` sets
`max(1, floor((capital / num_stocks) / open_price))` when the stored open
price is positive, falling back to 1 otherwise. When `num_stocks = 0`
(unreachable: the loop runs over a non-empty list) the code sets nothing. -/
def assignQuantity (strategy : CapitalStrategy) (capital : ℚ) (num_stocks : ℕ)
    (row : ScannerRow) : ScannerRow :=
  match strategy with
  | .one_each => { row with quantity := some 1 }
  | .equal_distribution =>
    if 0 < num_stocks then
      let budget_per_stock := capital / (num_stocks : ℚ)
      let price_proxy := row.open_price.getD 0
      if 0 < price_proxy then
        { row with quantity := some (max 1 ⌊budget_per_stock / price_proxy⌋) }
      else
        { row with quantity := some 1 }
    else row

/-- `calculate_quantity_and_finalize` from app.py: fetch the open price of
every selected symbol into `ohlc_map`, enrich each row with prices (dropping
rows whose open price is `0.0`), return `[]` if nothing survives, then assign
quantities per the capital strategy. -/
def calculate_quantity_and_finalize (snap : String → ℚ)
    (selected_data : List ScannerRow) (multiplier capital : ℚ)
    (strategy : CapitalStrategy) : List ScannerRow :=
  let symbols := selected_data.map (·.symbol)
  let lookup := ohlcLookup symbols snap
  let finalized_data := selected_data.filterMap (finalizeRow lookup multiplier)
  if finalized_data.isEmpty then []
  else
    let num_stocks := finalized_data.length
    finalized_data.map (assignQuantity strategy capital num_stocks)

end Dashboard

namespace KiteUtils

open Dashboard

/-- Step 2 of `calculate_quantity_and_finalize` from kite_utils.py for one
row. This variant swaps the sign convention: `calc_buy = open_price - delta`,
`calc_sell = open_price + delta`. Its skip branch calls `st.warning`, but
kite_utils.py never imports `st`, so reaching that branch raises `NameError`
instead of skipping. -/
def finalizeRow (lookup : String → ℚ) (multiplier : ℚ) (row : ScannerRow) :
    Except String ScannerRow :=
  let open_price := lookup row.symbol
  if open_price = 0 then .error "NameError: name st is not defined"
  else
    let metric_base_val := row.true_range.getD 0
    let delta := metric_base_val * multiplier
    let calc_buy := open_price - delta
    let calc_sell := open_price + delta
    .ok { row with
          open_price := some (pyRound open_price 2)
          buy_price := some (pyRound calc_buy 1)
          sell_price := some (pyRound calc_sell 1) }

/-- Step 3 of kite_utils.py's variant for one row. `"One each"` works;
`"Equal distribution"` reaches `math.floor`, but kite_utils.py never imports
`math`, so any row with a positive stored open price raises `NameError`. -/
def assignQuantity (strategy : CapitalStrategy) (capital : ℚ) (num_stocks : ℕ)
    (row : ScannerRow) : Except String ScannerRow :=
  match strategy with
  | .one_each => .ok { row with quantity := some 1 }
  | .equal_distribution =>
    if 0 < num_stocks then
      let _budget_per_stock := capital / (num_stocks : ℚ)
      let price_proxy := row.open_price.getD 0
      if 0 < price_proxy then .error "NameError: name math is not defined"
      else .ok { row with quantity := some 1 }
    else .ok row

/-- `calculate_quantity_and_finalize` from kite_utils.py (a second copy of the
app.py function, not imported by app.py). Structure is identical to the app.py
version except for the swapped buy/sell sign convention and the `NameError`s
raised on the paths that reference the missing `st` and `math` modules
(including the `st.error` call on the empty-result path). -/
def calculate_quantity_and_finalize (snap : String → ℚ)
    (selected_data : List ScannerRow) (multiplier capital : ℚ)
    (strategy : CapitalStrategy) : Except String (List ScannerRow) := do
  let symbols := selected_data.map (·.symbol)
  let lookup := ohlcLookup symbols snap
  let finalized_data ← selected_data.mapM (finalizeRow lookup multiplier)
  if finalized_data.isEmpty then .error "NameError: name st is not defined"
  else
    let num_stocks := finalized_data.length
    finalized_data.mapM (assignQuantity strategy capital num_stocks)

end KiteUtils

namespace Dashboard

/-- The enriched row produced by the `some` branch of `finalizeRow` (app.py
sign convention: buy above the open, sell below). -/
def enrich (lookup : String → ℚ) (multiplier : ℚ) (row : ScannerRow) : ScannerRow :=
  { row with
      open_price := some (pyRound (lookup row.symbol) 2)
      buy_price := some (pyRound (lookup row.symbol + row.true_range.getD 0 * multiplier) 1)
      sell_price := some (pyRound (lookup row.symbol - row.true_range.getD 0 * multiplier) 1) }

/-- The rows of a batch whose fetched open price is not the `0.0` sentinel. -/
def survivors (snap : String → ℚ) (rows : List ScannerRow) : List ScannerRow :=
  rows.filter (fun r => decide (snap r.symbol ≠ 0))

/-- Total cost of a finalized batch: quantity times the stored open price,
summed over the returned orders. -/
def totalCost (out : List ScannerRow) : ℚ :=
  (out.map (fun r => ((r.quantity.getD 0 : ℤ) : ℚ) * r.open_price.getD 0)).sum

/-- Total stored open price of the rows whose equal-distribution budget share
is below their open price: each such row is forced to the minimum quantity 1,
and only these rows can push the batch cost above `capital`. -/
def minQtyExcess (capital : ℚ) (out : List ScannerRow) : ℚ :=
  (out.map (fun r =>
    if capital / (out.length : ℚ) < r.open_price.getD 0 then r.open_price.getD 0 else 0)).sum

/-- The side of a brokerage limit order. -/
inductive Side where
  | buy
  | sell
  deriving DecidableEq, Repr

/-- One `kite.place_order` request as issued by `place_buy_order` /
`place_sell_order` (exchange NSE, product MIS, order type LIMIT, validity DAY
are fixed; only the varying arguments are modelled). -/
structure PlacementCall where
  side : Side
  tradingsymbol : String
  price : ℚ
  qty : ℤ
  deriving DecidableEq, Repr

/-- The `place_buy_order(kite_client, symbol, buy_price, quantity)` request of
one row. The price and quantity fields are always set when `place_all_orders`
runs (the rows come from `calculate_quantity_and_finalize`); `.getD 0` stands
for the dict accesses `order['buy_price']` and `order['quantity']`. -/
def buyCall (order : ScannerRow) : PlacementCall :=
  { side := .buy, tradingsymbol := order.symbol, price := order.buy_price.getD 0,
    qty := order.quantity.getD 0 }

/-- The `place_sell_order(kite_client, symbol, sell_price, quantity)` request
of one row. -/
def sellCall (order : ScannerRow) : PlacementCall :=
  { side := .sell, tradingsymbol := order.symbol, price := order.sell_price.getD 0,
    qty := order.quantity.getD 0 }

/-- One iteration of the `place_all_orders` loop: the `try` block runs
`place_buy_order` when `action in ['BUY', 'BOTH']` then `place_sell_order`
when `action in ['SELL', 'BOTH']`; the first raising call jumps to `except`.
The oracle maps a placement request to `none` (request accepted) or
`some e` (`kite.place_order` raised with message `e`). Returns the placement
calls actually attempted, in order, and either the `successful_orders` entry
`(symbol, action)` or the `failed_orders` entry `(symbol, action, e)`. -/
def processOrder (oracle : PlacementCall → Option String) (order : ScannerRow) :
    List PlacementCall × Except (String × String × String) (String × String) :=
  let action := order.Action
  if action = "BUY" ∨ action = "BOTH" then
    match oracle (buyCall order) with
    | some e => ([buyCall order], .error (order.symbol, action, e))
    | none =>
      if action = "SELL" ∨ action = "BOTH" then
        match oracle (sellCall order) with
        | some e => ([buyCall order, sellCall order], .error (order.symbol, action, e))
        | none => ([buyCall order, sellCall order], .ok (order.symbol, action))
      else ([buyCall order], .ok (order.symbol, action))
  else if action = "SELL" ∨ action = "BOTH" then
    match oracle (sellCall order) with
    | some e => ([sellCall order], .error (order.symbol, action, e))
    | none => ([sellCall order], .ok (order.symbol, action))
  else ([], .ok (order.symbol, action))

/-- `place_all_orders` from app.py: iterate over the confirmed batch,
recording each order as a success or a failure and never aborting the loop.
Returns `(successful_orders, failed_orders, attempted placement calls)`. -/
def place_all_orders (oracle : PlacementCall → Option String) :
    List ScannerRow →
      List (String × String) × List (String × String × String) × List PlacementCall
  | [] => ([], [], [])
  | order :: rest =>
    let step := processOrder oracle order
    let acc := place_all_orders oracle rest
    match step.2 with
    | .ok s => (s :: acc.1, acc.2.1, step.1 ++ acc.2.2)
    | .error f => (acc.1, f :: acc.2.1, step.1 ++ acc.2.2)

/-- The extracted `failed_orders` entry of a loop iteration, if any. -/
def errPart : Except (String × String × String) (String × String) →
    Option (String × String × String)
  | .error f => some f
  | .ok _ => none

/-- A parsed `kite_session.json` record: `data.get` on each field, `none`
meaning the key is missing. `user_data` is an opaque snapshot. -/
structure CacheData where
  api_key : Option String
  access_token : Option String
  user_data : Option String
  deriving DecidableEq, Repr

/-- The state of the local session cache file: absent, present but not valid
JSON (`json.load` raises), or a parsed record. -/
inductive CacheFile where
  | absent
  | malformed
  | record (data : CacheData)
  deriving DecidableEq, Repr

/-- Python falsiness of `data.get(field)` for a string field: a missing key
or an empty string. -/
def falsyField : Option String → Bool
  | none => true
  | some s => s.isEmpty

/-- `clear_local_cache`: removes the cache file if it exists. -/
def clear_local_cache (_cache : CacheFile) : CacheFile := .absent

/-- `load_session_from_disk` from app.py, as a function of the cache-file
state and of `validate api_key access_token`, which models whether the
`kite.profile()` probe succeeds (`false` covers both a rejected token and a
network error, which raise and land in the `except` branch). Returns the
boolean result and the cache-file state afterwards. The Python function
catches every exception, so it is total: it never raises to its caller. -/
def load_session_from_disk (validate : String → String → Bool) :
    CacheFile → Bool × CacheFile
  | .absent => (false, .absent)
  | .malformed => (false, clear_local_cache .malformed)
  | .record data =>
    if falsyField data.access_token || falsyField data.api_key then
      (false, .record data)
    else if validate (data.api_key.getD "") (data.access_token.getD "") then
      (true, .record data)
    else
      (false, clear_local_cache (.record data))

/-- The spec's end-to-end scenario row: INFY with true range 5.0. -/
def infyRow : ScannerRow :=
  { symbol := "INFY", rationale := "", true_range := some 5, Action := "BUY" }

/-- Gateway snapshot giving INFY an open price of 100.0. -/
def infySnap : String → ℚ := fun s => if s = "INFY" then 100 else 0

/-- What app.py's finalize makes of `infyRow`: buy above the open,
sell below. -/
def infyFinal : ScannerRow :=
  { symbol := "INFY", rationale := "", true_range := some 5, Action := "BUY",
    open_price := some 100, buy_price := some 107.5, sell_price := some 92.5,
    quantity := some 1 }

/-- What the kite_utils.py variant makes of `infyRow`: buy below the open,
sell above. -/
def infyFinalKU : ScannerRow :=
  { symbol := "INFY", rationale := "", true_range := some 5, Action := "BUY",
    open_price := some 100, buy_price := some 92.5, sell_price := some 107.5,
    quantity := some 1 }

/-- A row with no `true_range` key. -/
def tcsRow : ScannerRow :=
  { symbol := "TCS", rationale := "", true_range := none, Action := "BUY" }

/-- Snapshot giving every symbol an open price of 100.0. -/
def snap100 : String → ℚ := fun _ => 100

/-- `tcsRow` finalized at open 100 under ONE_EACH: no volatility metric, so
buy and sell both equal the open. -/
def tcsFinal : ScannerRow :=
  { symbol := "TCS", rationale := "", true_range := none, Action := "BUY",
    open_price := some 100, buy_price := some 100, sell_price := some 100,
    quantity := some 1 }

/-- Two expensive rows for the capital-bound counterexample. -/
def rowAAA : ScannerRow :=
  { symbol := "AAA", rationale := "", true_range := some 0, Action := "BUY" }

/-- Second expensive row. -/
def rowBBB : ScannerRow :=
  { symbol := "BBB", rationale := "", true_range := some 0, Action := "BUY" }

/-- Snapshot pricing every symbol at 10000. -/
def snap10000 : String → ℚ := fun _ => 10000

/-- `rowAAA` finalized with capital 100 split over two 10000-priced rows. -/
def rowAAAFinal : ScannerRow :=
  { symbol := "AAA", rationale := "", true_range := some 0, Action := "BUY",
    open_price := some 10000, buy_price := some 10000, sell_price := some 10000,
    quantity := some 1 }

/-- `rowBBB` finalized likewise. -/
def rowBBBFinal : ScannerRow :=
  { symbol := "BBB", rationale := "", true_range := some 0, Action := "BUY",
    open_price := some 10000, buy_price := some 10000, sell_price := some 10000,
    quantity := some 1 }

/-- A finalized BUY order on symbol A for the batch-submission scenarios. -/
def ordA : ScannerRow :=
  { symbol := "A", rationale := "", true_range := some 1, Action := "BUY",
    open_price := some 100, buy_price := some 99, sell_price := some 101,
    quantity := some 1 }

/-- A finalized BUY order on symbol B. -/
def ordB : ScannerRow :=
  { symbol := "B", rationale := "", true_range := some 1, Action := "BUY",
    open_price := some 200, buy_price := some 199, sell_price := some 201,
    quantity := some 1 }

/-- A finalized BUY order on symbol C. -/
def ordC : ScannerRow :=
  { symbol := "C", rationale := "", true_range := some 1, Action := "BUY",
    open_price := some 300, buy_price := some 299, sell_price := some 301,
    quantity := some 1 }

/-- An oracle under which exactly symbol B's placement raises. -/
def failSecondOracle : PlacementCall → Option String :=
  fun c => if c.tradingsymbol = "B" then some "rejected" else none

/-- A finalized BOTH order. -/
def bothOrder : ScannerRow :=
  { symbol := "D", rationale := "", true_range := some 1, Action := "BOTH",
    open_price := some 100, buy_price := some 99, sell_price := some 101,
    quantity := some 2 }

/-- An oracle accepting buys and rejecting sells. -/
def sellFailOracle : PlacementCall → Option String :=
  fun c => if c.side = .sell then some "rejected" else none

/-- A cache record whose required `access_token` field is missing. -/
def badRecord : CacheData :=
  { api_key := some "key", access_token := none, user_data := none }

end Dashboard

namespace Dashboard

lemma finalizeRow_eq (lookup : String → ℚ) (m : ℚ) (r : ScannerRow) :
    finalizeRow lookup m r =
      if lookup r.symbol = 0 then none else some (enrich lookup m r) := rfl

lemma ohlcLookup_eq_of_mem {symbols : List String} (snap : String → ℚ) {s : String}
    (h : s ∈ symbols) : ohlcLookup symbols snap s = snap s := by
  simp [ohlcLookup, h]

lemma finalizeRow_ohlcLookup {rows : List ScannerRow} (snap : String → ℚ) (m : ℚ)
    {r : ScannerRow} (h : r ∈ rows) :
    finalizeRow (ohlcLookup (rows.map (·.symbol)) snap) m r = finalizeRow snap m r := by
  have hs : r.symbol ∈ rows.map (·.symbol) := List.mem_map_of_mem _ h
  simp only [finalizeRow_eq, enrich, ohlcLookup_eq_of_mem snap hs]

lemma filterMap_finalizeRow (snap : String → ℚ) (m : ℚ) (rows : List ScannerRow) :
    rows.filterMap (finalizeRow snap m) = (survivors snap rows).map (enrich snap m) := by
  induction rows with
  | nil => simp [survivors]
  | cons r rest ih =>
    by_cases h : snap r.symbol = 0 <;>
      simp [survivors, List.filter_cons, List.filterMap_cons, finalizeRow_eq, h] <;>
      simpa [survivors] using ih

lemma calc_eq (snap : String → ℚ) (rows : List ScannerRow) (m c : ℚ)
    (s : CapitalStrategy) :
    calculate_quantity_and_finalize snap rows m c s =
      (survivors snap rows).map
        (fun r => assignQuantity s c (survivors snap rows).length (enrich snap m r)) := by
  unfold calculate_quantity_and_finalize
  have h1 : rows.filterMap (finalizeRow (ohlcLookup (rows.map (·.symbol)) snap) m)
      = (survivors snap rows).map (enrich snap m) := by
    rw [List.filterMap_congr (fun r hr => finalizeRow_ohlcLookup snap m hr),
      filterMap_finalizeRow]
  simp only [h1]
  by_cases he : survivors snap rows = []
  · simp [he]
  · simp [he, List.map_map, Function.comp_def]

end Dashboard

namespace Dashboard

lemma assignQuantity_eq (s : CapitalStrategy) (c : ℚ) (n : ℕ) (r : ScannerRow) :
    ∃ q : Option ℤ, assignQuantity s c n r = { r with quantity := q } := by
  cases s with
  | one_each => exact ⟨some 1, rfl⟩
  | equal_distribution =>
    simp only [assignQuantity]
    split_ifs with h1 h2
    · exact ⟨some (max 1 ⌊c / (n : ℚ) / r.open_price.getD 0⌋), rfl⟩
    · exact ⟨some 1, rfl⟩
    · exact ⟨r.quantity, rfl⟩

lemma assignQuantity_symbol (s : CapitalStrategy) (c : ℚ) (n : ℕ) (r : ScannerRow) :
    (assignQuantity s c n r).symbol = r.symbol := by
  obtain ⟨q, hq⟩ := assignQuantity_eq s c n r
  rw [hq]

lemma assignQuantity_rationale (s : CapitalStrategy) (c : ℚ) (n : ℕ) (r : ScannerRow) :
    (assignQuantity s c n r).rationale = r.rationale := by
  obtain ⟨q, hq⟩ := assignQuantity_eq s c n r
  rw [hq]

lemma assignQuantity_true_range (s : CapitalStrategy) (c : ℚ) (n : ℕ) (r : ScannerRow) :
    (assignQuantity s c n r).true_range = r.true_range := by
  obtain ⟨q, hq⟩ := assignQuantity_eq s c n r
  rw [hq]

lemma assignQuantity_Action (s : CapitalStrategy) (c : ℚ) (n : ℕ) (r : ScannerRow) :
    (assignQuantity s c n r).Action = r.Action := by
  obtain ⟨q, hq⟩ := assignQuantity_eq s c n r
  rw [hq]

lemma assignQuantity_open_price (s : CapitalStrategy) (c : ℚ) (n : ℕ) (r : ScannerRow) :
    (assignQuantity s c n r).open_price = r.open_price := by
  obtain ⟨q, hq⟩ := assignQuantity_eq s c n r
  rw [hq]

lemma assignQuantity_buy_price (s : CapitalStrategy) (c : ℚ) (n : ℕ) (r : ScannerRow) :
    (assignQuantity s c n r).buy_price = r.buy_price := by
  obtain ⟨q, hq⟩ := assignQuantity_eq s c n r
  rw [hq]

lemma assignQuantity_sell_price (s : CapitalStrategy) (c : ℚ) (n : ℕ) (r : ScannerRow) :
    (assignQuantity s c n r).sell_price = r.sell_price := by
  obtain ⟨q, hq⟩ := assignQuantity_eq s c n r
  rw [hq]

lemma assignQuantity_one_each (c : ℚ) (n : ℕ) (r : ScannerRow) :
    (assignQuantity .one_each c n r).quantity = some 1 := rfl

lemma assignQuantity_equal_quantity (c : ℚ) {n : ℕ} (hn : 0 < n) (r : ScannerRow) :
    (assignQuantity .equal_distribution c n r).quantity =
      some (if 0 < r.open_price.getD 0 then max 1 ⌊c / (n : ℚ) / r.open_price.getD 0⌋
            else 1) := by
  simp only [assignQuantity, if_pos hn]
  split_ifs <;> rfl

lemma mem_calc {snap : String → ℚ} {rows : List ScannerRow} {m c : ℚ}
    {s : CapitalStrategy} {r : ScannerRow}
    (hr : r ∈ calculate_quantity_and_finalize snap rows m c s) :
    ∃ r0 ∈ survivors snap rows,
      r = assignQuantity s c (survivors snap rows).length (enrich snap m r0) := by
  rw [calc_eq] at hr
  obtain ⟨r0, hr0, hre⟩ := List.mem_map.1 hr
  exact ⟨r0, hr0, hre.symm⟩

lemma survivors_length_pos {snap : String → ℚ} {rows : List ScannerRow}
    {r0 : ScannerRow} (h : r0 ∈ survivors snap rows) :
    0 < (survivors snap rows).length :=
  List.length_pos.2 (List.ne_nil_of_mem h)

lemma mem_survivors_ne_zero {snap : String → ℚ} {rows : List ScannerRow}
    {r0 : ScannerRow} (h : r0 ∈ survivors snap rows) : snap r0.symbol ≠ 0 := by
  have := (List.mem_filter.1 h).2
  simpa using this

end Dashboard

namespace Dashboard

lemma sum_map_add {α : Type*} (l : List α) (f g : α → ℚ) :
    (l.map fun a => f a + g a).sum = (l.map f).sum + (l.map g).sum := by
  induction l with
  | nil => simp
  | cons a t ih => simp [ih]; ring

lemma sum_map_const {α : Type*} (l : List α) (b : ℚ) :
    (l.map fun _ => b).sum = (l.length : ℚ) * b := by
  induction l with
  | nil => simp
  | cons a t ih => simp [ih]; ring

lemma qty_cost_le {B p : ℚ} (hB : 0 ≤ B) :
    (((if 0 < p then max 1 ⌊B / p⌋ else 1) : ℤ) : ℚ) * p ≤
      B + (if B < p then p else 0) := by
  by_cases hp : 0 < p
  · by_cases hBp : B < p
    · have h1 : B / p < 1 := (div_lt_one hp).2 hBp
      have h2 : ⌊B / p⌋ < 1 := Int.floor_lt.2 (by exact_mod_cast h1)
      have hmax : max 1 ⌊B / p⌋ = 1 := max_eq_left (by omega)
      rw [if_pos hp, hmax, if_pos hBp]
      push_cast
      linarith
    · push_neg at hBp
      have h1 : (1 : ℚ) ≤ B / p := (one_le_div hp).2 hBp
      have h2 : (1 : ℤ) ≤ ⌊B / p⌋ := by
        have := Int.le_floor.2 (by exact_mod_cast h1)
        exact_mod_cast this
      have hmax : max 1 ⌊B / p⌋ = ⌊B / p⌋ := max_eq_right h2
      have h3 : (⌊B / p⌋ : ℚ) * p ≤ B / p * p :=
        mul_le_mul_of_nonneg_right (Int.floor_le _) hp.le
      rw [div_mul_cancel₀ B (ne_of_gt hp)] at h3
      rw [if_pos hp, hmax, if_neg (not_lt.2 hBp)]
      linarith
  · push_neg at hp
    have hnBp : ¬ B < p := not_lt.2 (le_trans hp hB)
    rw [if_neg (by exact not_lt.2 hp : ¬ 0 < p), if_neg hnBp]
    push_cast
    linarith

end Dashboard

namespace Dashboard

lemma processOrder_ok {oracle : PlacementCall → Option String} {o : ScannerRow}
    {s : String × String} (h : (processOrder oracle o).2 = .ok s) :
    s = (o.symbol, o.Action) := by
  simp only [processOrder] at h
  repeat' split at h
  all_goals simp_all

lemma place_all_orders_trace (oracle : PlacementCall → Option String)
    (orders : List ScannerRow) :
    (place_all_orders oracle orders).2.2 =
      (orders.map (fun o => (processOrder oracle o).1)).flatten := by
  induction orders with
  | nil => rfl
  | cons o rest ih =>
    cases h : (processOrder oracle o).2 <;> simp [place_all_orders, h, ih]

lemma place_all_orders_succ (oracle : PlacementCall → Option String)
    (orders : List ScannerRow) :
    (place_all_orders oracle orders).1 =
      (orders.filter (fun o => (processOrder oracle o).2.isOk)).map
        (fun o => (o.symbol, o.Action)) := by
  induction orders with
  | nil => rfl
  | cons o rest ih =>
    cases h : (processOrder oracle o).2 with
    | error f => simp [place_all_orders, h, ih, List.filter_cons, Except.isOk, Except.toBool]
    | ok s =>
      have hs := processOrder_ok h
      simp [place_all_orders, h, ih, List.filter_cons, Except.isOk, Except.toBool, hs]

lemma place_all_orders_fail (oracle : PlacementCall → Option String)
    (orders : List ScannerRow) :
    (place_all_orders oracle orders).2.1 =
      orders.filterMap (fun o => errPart (processOrder oracle o).2) := by
  induction orders with
  | nil => rfl
  | cons o rest ih =>
    cases h : (processOrder oracle o).2 <;>
      simp [place_all_orders, h, ih, List.filterMap_cons, errPart]

lemma place_all_orders_count (oracle : PlacementCall → Option String)
    (orders : List ScannerRow) :
    (place_all_orders oracle orders).1.length +
      (place_all_orders oracle orders).2.1.length = orders.length := by
  induction orders with
  | nil => rfl
  | cons o rest ih =>
    cases h : (processOrder oracle o).2 <;>
      simp [place_all_orders, h] <;> omega

end Dashboard

namespace Dashboard

lemma infy_eval_app :
    calculate_quantity_and_finalize infySnap [infyRow] (3/2) 100000 .one_each =
      [infyFinal] := by
  simp [calculate_quantity_and_finalize, finalizeRow, assignQuantity, ohlcLookup,
    pyRound, roundHalfEven, infyRow, infySnap, infyFinal]
  norm_num

lemma infy_eval_ku :
    KiteUtils.calculate_quantity_and_finalize infySnap [infyRow] (3/2) 100000 .one_each =
      .ok [infyFinalKU] := by
  simp [KiteUtils.calculate_quantity_and_finalize, KiteUtils.finalizeRow,
    KiteUtils.assignQuantity, ohlcLookup, pyRound, roundHalfEven, infyRow, infySnap,
    infyFinalKU, List.mapM, List.mapM.loop, Bind.bind, Except.bind, Pure.pure,
    Except.pure]
  norm_num

lemma tcs_eval :
    calculate_quantity_and_finalize snap100 [tcsRow] (3/2) 100000 .one_each =
      [tcsFinal] := by
  simp [calculate_quantity_and_finalize, finalizeRow, assignQuantity, ohlcLookup,
    pyRound, roundHalfEven, tcsRow, snap100, tcsFinal]
  norm_num

lemma cost_eval :
    calculate_quantity_and_finalize snap10000 [rowAAA, rowBBB] 1 100 .equal_distribution =
      [rowAAAFinal, rowBBBFinal] := by
  simp [calculate_quantity_and_finalize, finalizeRow, assignQuantity, ohlcLookup,
    pyRound, roundHalfEven, rowAAA, rowBBB, snap10000, rowAAAFinal, rowBBBFinal]
  norm_num

end Dashboard

namespace Dashboard

lemma sum_cost_bound (prices : List ℚ) (capital : ℚ) (hcap : 0 ≤ capital) :
    (prices.map (fun p =>
        (((if 0 < p then max 1 ⌊capital / (prices.length : ℚ) / p⌋ else 1) : ℤ) : ℚ) * p)).sum ≤
      capital + (prices.map (fun p =>
        if capital / (prices.length : ℚ) < p then p else 0)).sum := by
  rcases eq_or_ne prices [] with h0 | h0
  · simp [h0, hcap]
  · have hlen : 0 < prices.length := List.length_pos.2 h0
    have hBnn : 0 ≤ capital / (prices.length : ℚ) := div_nonneg hcap (Nat.cast_nonneg _)
    have h1 : (prices.map (fun p =>
          (((if 0 < p then max 1 ⌊capital / (prices.length : ℚ) / p⌋ else 1) : ℤ) : ℚ) * p)).sum ≤
        (prices.map (fun p => capital / (prices.length : ℚ) +
          (if capital / (prices.length : ℚ) < p then p else 0))).sum :=
      List.sum_le_sum (fun p _ => qty_cost_le hBnn)
    rw [sum_map_add, sum_map_const] at h1
    have h2 : (prices.length : ℚ) * (capital / (prices.length : ℚ)) = capital := by
      have : (prices.length : ℚ) ≠ 0 := by exact_mod_cast Nat.pos_iff_ne_zero.1 hlen
      field_simp
    linarith

end Dashboard

namespace Dashboard

lemma cost_bound_aux (L : List ScannerRow) (snap : String → ℚ) (m capital : ℚ)
    (hcap : 0 ≤ capital) :
    totalCost (L.map (fun r => assignQuantity .equal_distribution capital L.length
        (enrich snap m r))) ≤
      capital + minQtyExcess capital (L.map (fun r =>
        assignQuantity .equal_distribution capital L.length (enrich snap m r))) := by
  rcases eq_or_ne L [] with h0 | h0
  · simp [h0, totalCost, minQtyExcess, hcap]
  · have hlen : 0 < L.length := List.length_pos.2 h0
    have hopen : ∀ r : ScannerRow,
        (assignQuantity .equal_distribution capital L.length
          (enrich snap m r)).open_price.getD 0 = pyRound (snap r.symbol) 2 := by
      intro r
      rw [assignQuantity_open_price]
      rfl
    have hqty : ∀ r : ScannerRow,
        ((assignQuantity .equal_distribution capital L.length
            (enrich snap m r)).quantity.getD 0 : ℤ) =
          (if 0 < pyRound (snap r.symbol) 2 then
            max 1 ⌊capital / (L.length : ℚ) / pyRound (snap r.symbol) 2⌋ else 1) := by
      intro r
      rw [assignQuantity_equal_quantity capital hlen]
      simp [enrich]
    unfold totalCost minQtyExcess
    rw [List.map_map, List.map_map, List.length_map]
    have e1 : (L.map ((fun r => ((r.quantity.getD 0 : ℤ) : ℚ) * r.open_price.getD 0) ∘
          (fun r => assignQuantity .equal_distribution capital L.length (enrich snap m r))))
        = (L.map (fun r => pyRound (snap r.symbol) 2)).map (fun p =>
            (((if 0 < p then max 1 ⌊capital / (L.length : ℚ) / p⌋ else 1) : ℤ) : ℚ) * p) := by
      rw [List.map_map]
      apply List.map_congr_left
      intro r _
      simp only [Function.comp_apply, hopen r, hqty r]
    have e2 : (L.map ((fun r => if capital / (L.length : ℚ) < r.open_price.getD 0
            then r.open_price.getD 0 else 0) ∘
          (fun r => assignQuantity .equal_distribution capital L.length (enrich snap m r))))
        = (L.map (fun r => pyRound (snap r.symbol) 2)).map (fun p =>
            if capital / (L.length : ℚ) < p then p else 0) := by
      rw [List.map_map]
      apply List.map_congr_left
      intro r _
      simp only [Function.comp_apply, hopen r]
    rw [e1, e2]
    have hfin := sum_cost_bound (L.map (fun r => pyRound (snap r.symbol) 2)) capital hcap
    rwa [List.length_map] at hfin

end Dashboard

namespace Dashboard

/-- Claim C1, counterexample: on the spec's scenario — row INFY with
trueRange 5.0, multiplier 1.5, fetched open 100.0, ONE_EACH — the finalize
invoked by the app (app.py) returns buyPrice 107.5 and sellPrice 92.5,
so the claimed buyPrice = 92.5 (open minus delta) is false. -/
theorem infy_buy_above_open_counterexample :
    (calculate_quantity_and_finalize infySnap [infyRow] (3/2) 100000
        .one_each).map (fun r => (r.buy_price, r.sell_price)) =
      [(some 107.5, some 92.5)] ∧
    (107.5 : ℚ) ≠ 92.5 := by
  constructor
  · rw [infy_eval_app]
    rfl
  · norm_num

/-- Claim C1, amended: on the INFY scenario the app.py finalize computes
delta = 7.5 and returns exactly one order with quantity 1 and with
buyPrice = 107.5 (open plus delta) and sellPrice = 92.5 (open minus delta);
the kite_utils.py copy of the function (dead code, not imported by app.py)
uses the claimed convention buy = open − delta, sell = open + delta. -/
theorem infy_scenario_amended :
    calculate_quantity_and_finalize infySnap [infyRow] (3/2) 100000 .one_each =
      [{ symbol := "INFY", rationale := "", true_range := some 5, Action := "BUY",
         open_price := some 100, buy_price := some 107.5, sell_price := some 92.5,
         quantity := some 1 }] ∧
    KiteUtils.calculate_quantity_and_finalize infySnap [infyRow] (3/2) 100000
        .one_each =
      .ok [{ symbol := "INFY", rationale := "", true_range := some 5, Action := "BUY",
             open_price := some 100, buy_price := some 92.5, sell_price := some 107.5,
             quantity := some 1 }] :=
  ⟨infy_eval_app, infy_eval_ku⟩

/-- Claim C2, counterexample: with capital 100, two rows both priced 10000
under EQUAL_DISTRIBUTION, each row is forced to the minimum quantity 1, so
the total cost 20000 exceeds capital plus one row's minimum-quantity cost
(100 + 10000 = 10100). -/
theorem equal_distribution_exceeds_capital_counterexample :
    (calculate_quantity_and_finalize snap10000 [rowAAA, rowBBB] 1 100
        .equal_distribution).map (fun r => (r.open_price, r.quantity)) =
      [(some 10000, some 1), (some 10000, some 1)] ∧
    totalCost (calculate_quantity_and_finalize snap10000 [rowAAA, rowBBB] 1 100
        .equal_distribution) = 20000 ∧
    ¬ ((20000 : ℚ) ≤ 100 + 10000) := by
  refine ⟨?_, ?_, by norm_num⟩
  · rw [cost_eval]
    rfl
  · rw [cost_eval]
    simp [totalCost, rowAAAFinal, rowBBBFinal]
    norm_num

/-- Claim C2, amended: for every row list, multiplier and nonnegative
capital, the finalize of app.py under EQUAL_DISTRIBUTION returns orders whose
total cost (quantity times stored open price) is at most capital plus the sum
of the open prices of the rows whose per-row budget share is below their open
price — every such row is forced to the minimum quantity 1, and each can
exceed its share by up to its own open price. -/
theorem equal_distribution_cost_bound (snap : String → ℚ)
    (rows : List ScannerRow) (multiplier capital : ℚ) (hcap : 0 ≤ capital) :
    totalCost (calculate_quantity_and_finalize snap rows multiplier capital
        .equal_distribution) ≤
      capital + minQtyExcess capital
        (calculate_quantity_and_finalize snap rows multiplier capital
          .equal_distribution) := by
  rw [calc_eq]
  exact cost_bound_aux (survivors snap rows) snap multiplier capital hcap

/-- Witness for the amended C2 bound at a concrete batch. -/
theorem equal_distribution_cost_bound_witness :
    (0 : ℚ) ≤ 100 ∧
    totalCost (calculate_quantity_and_finalize snap10000 [rowAAA, rowBBB] 1 100
        .equal_distribution) ≤
      100 + minQtyExcess 100
        (calculate_quantity_and_finalize snap10000 [rowAAA, rowBBB] 1 100
          .equal_distribution) :=
  ⟨by norm_num, equal_distribution_cost_bound snap10000 [rowAAA, rowBBB] 1 100
    (by norm_num)⟩

/-- Claim C3, counterexample: a persisted record with the required
`access_token` field missing is a failure case after which
`load_session_from_disk` returns not-logged-in but leaves the record on
disk — the early `return False` skips `clear_local_cache`, which only runs
in the `except` branch. -/
theorem load_session_missing_fields_keeps_record :
    (load_session_from_disk (fun _ _ => true) (.record badRecord)).1 = false ∧
    (load_session_from_disk (fun _ _ => true) (.record badRecord)).2 =
      .record badRecord ∧
    CacheFile.record badRecord ≠ .absent := by
  refine ⟨rfl, rfl, ?_⟩
  intro h
  cases h

/-- Claim C3, amended: `load_session_from_disk` never raises (it is a total
function) and returns not-logged-in on every failure case; it deletes the
persisted record when the record is malformed JSON or when the remote
validation call fails, but when the record merely lacks a required field
(falsy `access_token` or `api_key`) the record is left on disk, and when the
cache file is absent there is nothing to delete. -/
theorem load_session_failure_behaviour (validate : String → String → Bool)
    (d : CacheData) :
    load_session_from_disk validate .absent = (false, .absent) ∧
    load_session_from_disk validate .malformed = (false, .absent) ∧
    ((falsyField d.access_token || falsyField d.api_key) = true →
      load_session_from_disk validate (.record d) = (false, .record d)) ∧
    ((falsyField d.access_token || falsyField d.api_key) = false →
      validate (d.api_key.getD "") (d.access_token.getD "") = false →
      load_session_from_disk validate (.record d) = (false, .absent)) := by
  refine ⟨rfl, rfl, ?_, ?_⟩
  · intro h
    simp [load_session_from_disk, h]
  · intro h hv
    simp [load_session_from_disk, h, hv, clear_local_cache]

/-- Witness for the amended C3 behaviour at a concrete record. -/
theorem load_session_failure_behaviour_witness :
    (falsyField badRecord.access_token || falsyField badRecord.api_key) = true ∧
    load_session_from_disk (fun _ _ => true) (.record badRecord) =
      (false, .record badRecord) :=
  ⟨rfl, (load_session_failure_behaviour (fun _ _ => true) badRecord).2.2.1 rfl⟩

end Dashboard

namespace Dashboard

/-- Claim C4: for every selected row list, multiplier, capital, strategy and
gateway snapshot, rows whose fetched open price is 0.0 are excluded from the
output of app.py's finalize, and the remaining rows are processed exactly as
if the zero-priced rows had not been selected (per-row filter, not a batch
failure); every returned row has a non-zero fetched open price. -/
theorem finalize_drops_zero_open_rows (snap : String → ℚ)
    (rows : List ScannerRow) (multiplier capital : ℚ) (strategy : CapitalStrategy) :
    calculate_quantity_and_finalize snap rows multiplier capital strategy =
      calculate_quantity_and_finalize snap (survivors snap rows) multiplier capital
        strategy ∧
    ∀ r ∈ calculate_quantity_and_finalize snap rows multiplier capital strategy,
      snap r.symbol ≠ 0 := by
  constructor
  · rw [calc_eq, calc_eq]
    have h : survivors snap (survivors snap rows) = survivors snap rows := by
      simp [survivors, List.filter_filter]
    rw [h]
  · intro r hr
    obtain ⟨r0, hr0, rfl⟩ := mem_calc hr
    have hne := mem_survivors_ne_zero hr0
    rw [assignQuantity_symbol]
    simpa [enrich] using hne

/-- Witness for C4 at the INFY scenario. -/
theorem finalize_drops_zero_open_rows_witness :
    infyFinal ∈ calculate_quantity_and_finalize infySnap [infyRow] (3/2) 100000
      .one_each ∧
    infySnap infyFinal.symbol ≠ 0 := by
  have hm : infyFinal ∈ calculate_quantity_and_finalize infySnap [infyRow] (3/2)
      100000 .one_each := by
    rw [infy_eval_app]
    exact List.mem_singleton_self _
  exact ⟨hm, (finalize_drops_zero_open_rows infySnap [infyRow] (3/2) 100000
    .one_each).2 infyFinal hm⟩

/-- Claim C6: every order returned by app.py's finalize has a positive
integer quantity, for both strategies, and under ONE_EACH the quantity is
exactly 1. -/
theorem finalize_quantity_positive (snap : String → ℚ) (rows : List ScannerRow)
    (multiplier capital : ℚ) (strategy : CapitalStrategy) :
    ∀ r ∈ calculate_quantity_and_finalize snap rows multiplier capital strategy,
      (∃ q : ℤ, r.quantity = some q ∧ 1 ≤ q) ∧
      (strategy = .one_each → r.quantity = some 1) := by
  intro r hr
  obtain ⟨r0, hr0, rfl⟩ := mem_calc hr
  have hn := survivors_length_pos hr0
  cases strategy with
  | one_each =>
    exact ⟨⟨1, assignQuantity_one_each capital _ _, le_refl 1⟩,
      fun _ => assignQuantity_one_each capital _ _⟩
  | equal_distribution =>
    rw [assignQuantity_equal_quantity capital hn]
    constructor
    · refine ⟨_, rfl, ?_⟩
      split_ifs
      · exact le_max_left 1 _
      · exact le_refl 1
    · intro h
      exact CapitalStrategy.noConfusion h

/-- Witness for C6 at the INFY scenario. -/
theorem finalize_quantity_positive_witness :
    infyFinal ∈ calculate_quantity_and_finalize infySnap [infyRow] (3/2) 100000
      .one_each ∧
    (∃ q : ℤ, infyFinal.quantity = some q ∧ 1 ≤ q) ∧
    (CapitalStrategy.one_each = .one_each → infyFinal.quantity = some 1) := by
  have hm : infyFinal ∈ calculate_quantity_and_finalize infySnap [infyRow] (3/2)
      100000 .one_each := by
    rw [infy_eval_app]
    exact List.mem_singleton_self _
  exact ⟨hm, finalize_quantity_positive infySnap [infyRow] (3/2) 100000 .one_each
    infyFinal hm⟩

/-- Claim C7: every order returned by app.py's finalize has
`buy_price = round(open + trueRange*multiplier, 1)` and
`sell_price = round(open − trueRange*multiplier, 1)` (a deterministic
rounding of openPrice ± trueRange*multiplier), and both prices are exact
multiples of 0.1. -/
theorem finalize_prices_tenth_multiples (snap : String → ℚ)
    (rows : List ScannerRow) (multiplier capital : ℚ) (strategy : CapitalStrategy) :
    ∀ r ∈ calculate_quantity_and_finalize snap rows multiplier capital strategy,
      r.buy_price = some (pyRound (snap r.symbol + r.true_range.getD 0 * multiplier) 1) ∧
      r.sell_price = some (pyRound (snap r.symbol - r.true_range.getD 0 * multiplier) 1) ∧
      (∃ k : ℤ, r.buy_price = some ((k : ℚ) / 10)) ∧
      ∃ k : ℤ, r.sell_price = some ((k : ℚ) / 10) := by
  intro r hr
  obtain ⟨r0, hr0, rfl⟩ := mem_calc hr
  rw [assignQuantity_buy_price, assignQuantity_sell_price, assignQuantity_symbol,
    assignQuantity_true_range]
  refine ⟨?_, ?_,
    ⟨roundHalfEven ((snap r0.symbol + r0.true_range.getD 0 * multiplier) * 10 ^ 1), ?_⟩,
    ⟨roundHalfEven ((snap r0.symbol - r0.true_range.getD 0 * multiplier) * 10 ^ 1), ?_⟩⟩ <;>
    simp [enrich, pyRound]

/-- Witness for C7 at the INFY scenario. -/
theorem finalize_prices_tenth_multiples_witness :
    infyFinal ∈ calculate_quantity_and_finalize infySnap [infyRow] (3/2) 100000
      .one_each ∧
    (infyFinal.buy_price =
        some (pyRound (infySnap infyFinal.symbol +
          infyFinal.true_range.getD 0 * (3/2)) 1) ∧
      infyFinal.sell_price =
        some (pyRound (infySnap infyFinal.symbol -
          infyFinal.true_range.getD 0 * (3/2)) 1) ∧
      (∃ k : ℤ, infyFinal.buy_price = some ((k : ℚ) / 10)) ∧
      ∃ k : ℤ, infyFinal.sell_price = some ((k : ℚ) / 10)) := by
  have hm : infyFinal ∈ calculate_quantity_and_finalize infySnap [infyRow] (3/2)
      100000 .one_each := by
    rw [infy_eval_app]
    exact List.mem_singleton_self _
  exact ⟨hm, finalize_prices_tenth_multiples infySnap [infyRow] (3/2) 100000
    .one_each infyFinal hm⟩

/-- Claim C8: app.py's finalize enriches the surviving input rows in place:
the returned list pairs up one-to-one, in order, with the rows that pass the
open-price filter; each returned row keeps its `symbol`, `rationale`,
`true_range` and `Action` unchanged and has the `open_price`, `buy_price`,
`sell_price` and `quantity` fields set. (Pointer identity of the mutated
dicts is expressed here as field preservation on the record model.) -/
theorem finalize_preserves_fields (snap : String → ℚ) (rows : List ScannerRow)
    (multiplier capital : ℚ) (strategy : CapitalStrategy) :
    List.Forall₂ (fun r r' =>
        r'.symbol = r.symbol ∧ r'.rationale = r.rationale ∧
        r'.true_range = r.true_range ∧ r'.Action = r.Action ∧
        r'.open_price.isSome = true ∧ r'.buy_price.isSome = true ∧
        r'.sell_price.isSome = true ∧ r'.quantity.isSome = true)
      (survivors snap rows)
      (calculate_quantity_and_finalize snap rows multiplier capital strategy) := by
  rw [calc_eq, List.forall₂_map_right_iff, List.forall₂_same]
  intro r hr
  have hn := survivors_length_pos hr
  refine ⟨?_, ?_, ?_, ?_, ?_, ?_, ?_, ?_⟩
  · rw [assignQuantity_symbol]
    rfl
  · rw [assignQuantity_rationale]
    rfl
  · rw [assignQuantity_true_range]
    rfl
  · rw [assignQuantity_Action]
    rfl
  · rw [assignQuantity_open_price]
    simp [enrich]
  · rw [assignQuantity_buy_price]
    simp [enrich]
  · rw [assignQuantity_sell_price]
    simp [enrich]
  · cases strategy with
    | one_each => rw [assignQuantity_one_each]; rfl
    | equal_distribution => rw [assignQuantity_equal_quantity capital hn]; rfl

/-- Claim C10: a returned row whose `true_range` key is absent (or equal to
0) and whose open price fetched non-zero gets `delta = 0`, so its buy and
sell prices coincide and both equal the fetched open price rounded to one
decimal place. -/
theorem finalize_no_true_range_flat_prices (snap : String → ℚ)
    (rows : List ScannerRow) (multiplier capital : ℚ) (strategy : CapitalStrategy) :
    ∀ r ∈ calculate_quantity_and_finalize snap rows multiplier capital strategy,
      (r.true_range = none ∨ r.true_range = some 0) →
      r.buy_price = some (pyRound (snap r.symbol) 1) ∧
      r.sell_price = some (pyRound (snap r.symbol) 1) := by
  intro r hr htr
  obtain ⟨r0, hr0, rfl⟩ := mem_calc hr
  rw [assignQuantity_true_range] at htr
  rw [assignQuantity_buy_price, assignQuantity_sell_price, assignQuantity_symbol]
  have h0 : r0.true_range.getD 0 = 0 := by
    rcases htr with h | h <;> simp [enrich] at h <;> simp [h]
  constructor <;> simp [enrich, h0]

/-- Witness for C10: a row with no `true_range` key at open 100. -/
theorem finalize_no_true_range_flat_prices_witness :
    tcsFinal ∈ calculate_quantity_and_finalize snap100 [tcsRow] (3/2) 100000
      .one_each ∧
    (tcsFinal.true_range = none ∨ tcsFinal.true_range = some 0) ∧
    tcsFinal.buy_price = some (pyRound (snap100 tcsFinal.symbol) 1) ∧
    tcsFinal.sell_price = some (pyRound (snap100 tcsFinal.symbol) 1) := by
  have hm : tcsFinal ∈ calculate_quantity_and_finalize snap100 [tcsRow] (3/2)
      100000 .one_each := by
    rw [tcs_eval]
    exact List.mem_singleton_self _
  have hc := finalize_no_true_range_flat_prices snap100 [tcsRow] (3/2) 100000
    .one_each tcsFinal hm (Or.inl rfl)
  exact ⟨hm, Or.inl rfl, hc.1, hc.2⟩

/-- Claim C5: batch submission attempts each order's placement calls
independently of the outcomes of the other orders (the trace of attempted
calls is the concatenation of each order's own attempts) and records every
order as either a success or a failure, so the loop never aborts early; on
a batch of three BUY orders where exactly the second symbol's placement
raises, it reports the two other symbols as successes, the second as the
single failure, and has attempted all three calls. -/
theorem place_all_orders_attempts_every_order :
    (∀ (oracle : PlacementCall → Option String) (orders : List ScannerRow),
      (place_all_orders oracle orders).2.2 =
        (orders.map (fun o => (processOrder oracle o).1)).flatten ∧
      (place_all_orders oracle orders).1.length +
        (place_all_orders oracle orders).2.1.length = orders.length) ∧
    place_all_orders failSecondOracle [ordA, ordB, ordC] =
      ([("A", "BUY"), ("C", "BUY")], [("B", "BUY", "rejected")],
        [buyCall ordA, buyCall ordB, buyCall ordC]) := by
  refine ⟨fun oracle orders => ⟨place_all_orders_trace oracle orders,
    place_all_orders_count oracle orders⟩, ?_⟩
  simp [place_all_orders, processOrder, buyCall, ordA, ordB, ordC, failSecondOracle]

/-- Claim C9: during batch submission every order contributes exactly one
entry, to the success list when its `try` block completes and to the failure
list when a placement call raises (never both): the success list is exactly
the ok-outcome orders in order and the failure list exactly the error
outcomes. For an order with action BOTH, the buy placement is attempted
before the sell placement, and if the buy succeeds but the sell raises the
order is recorded only as a failure although its buy order was placed. -/
theorem place_all_orders_one_entry_each :
    (∀ (oracle : PlacementCall → Option String) (orders : List ScannerRow),
      (place_all_orders oracle orders).1 =
        (orders.filter (fun o => (processOrder oracle o).2.isOk)).map
          (fun o => (o.symbol, o.Action)) ∧
      (place_all_orders oracle orders).2.1 =
        orders.filterMap (fun o => errPart (processOrder oracle o).2)) ∧
    (∀ (oracle : PlacementCall → Option String) (o : ScannerRow) (e : String),
      o.Action = "BOTH" → oracle (buyCall o) = none → oracle (sellCall o) = some e →
      processOrder oracle o =
        ([buyCall o, sellCall o], .error (o.symbol, o.Action, e))) := by
  refine ⟨fun oracle orders => ⟨place_all_orders_succ oracle orders,
    place_all_orders_fail oracle orders⟩, ?_⟩
  intro oracle o e hA hb hs
  simp [processOrder, hA, hb, hs]

/-- Witness for C9: a BOTH order whose buy is accepted and whose sell is
rejected. -/
theorem place_all_orders_one_entry_each_witness :
    bothOrder.Action = "BOTH" ∧
    sellFailOracle (buyCall bothOrder) = none ∧
    sellFailOracle (sellCall bothOrder) = some "rejected" ∧
    processOrder sellFailOracle bothOrder =
      ([buyCall bothOrder, sellCall bothOrder],
        .error (bothOrder.symbol, bothOrder.Action, "rejected")) :=
  ⟨rfl, rfl, rfl, place_all_orders_one_entry_each.2 sellFailOracle bothOrder
    "rejected" rfl rfl rfl⟩

end Dashboard
